import Mathlib

/-!
Verification of the persistence layer of the `investment_assistant` repository
(`src/investment_assistant/database.py`, class `Database`).

The embedding models a SQLite database file as a record of six tables.  Each
table carries the list of its column names (`cols`), its rows in rowid order
(`rows`), and the next AUTOINCREMENT rowid (`autoinc`).  Modelling the column
list is load-bearing: SQLite rejects, at statement-preparation time, any
INSERT or UPDATE that names a column the table does not have ("no such
column"), and `Database.init_db` creates `trade_ideas` WITHOUT the
`idea_price_at_creation` column that `add_trade_idea` and
`update_trade_idea_price_at_creation` name.  Every operation that executes an
INSERT or UPDATE therefore first checks the named columns against the table's
column list and returns `Except.error` when one is missing; on error nothing
is committed, so the store is unchanged (the Python code closes the
connection without commit, rolling back).  Read-only operations are likewise
guarded by the columns their WHERE / ORDER BY clauses name.

`CURRENT_TIMESTAMP` is modelled by an explicit `now : Nat` argument passed to
each operation that writes a timestamp; `datetime.now().strftime("%Y-%m-%d")`
in `add_trade` is modelled by an explicit `today : String` argument.  SQL
`DECIMAL` values are modelled as `Rat`, nullable columns as `Option`, and an
un-ordered SQL result set is modelled in rowid (insertion) order, with
`ORDER BY` realised by `List.mergeSort`.  SQL `SUM` over an empty selection
is `NULL`, modelled as `Option Rat` with Python's `or 0` as `Option.getD 0`.
-/

namespace InvestmentAssistant

/-- Row of `investment_trends` (CREATE TABLE in `Database.init_db`). -/
structure TrendRow where
  id : Nat
  week_start_date : String
  trend_content : String
  created_at : Nat
  updated_at : Nat
deriving DecidableEq

/-- Row of `trade_ideas`.  The structure carries an `idea_price_at_creation`
field so that stores whose `trade_ideas` table has that column (it is named
by `add_trade_idea`, but never created by `init_db`) can be represented; on
stores without the column the field is never read or written because the
column guard fails first. -/
structure TradeIdeaRow where
  id : Nat
  symbol : Option String
  idea_description : String
  entry_price : Option Rat
  target_price : Option Rat
  stop_loss : Option Rat
  reasoning : Option String
  status : String
  created_at : Nat
  updated_at : Nat
  idea_price_at_creation : Option Rat
deriving DecidableEq

/-- Row of `trades`. -/
structure TradeRow where
  id : Nat
  symbol : String
  trade_type : String
  quantity : Rat
  price : Rat
  amount : Rat
  reasoning : Option String
  trade_date : String
  created_at : Nat
deriving DecidableEq

/-- Row of `prompts`. -/
structure PromptRow where
  id : Nat
  name : String
  prompt_content : String
  category : String
  created_at : Nat
  updated_at : Nat
deriving DecidableEq

/-- Row of `gpt_trends`.  `idea_content` is nullable; an explicitly stored
empty string is distinct from NULL, hence `Option String`. -/
structure GptTrendRow where
  id : Nat
  title : String
  trend_content : String
  idea_content : Option String
  created_at : Nat
  updated_at : Nat
deriving DecidableEq

/-- Row of the legacy `gpt_ideas` child table. -/
structure GptIdeaRow where
  id : Nat
  trend_id : Nat
  idea_content : String
  created_at : Nat
  updated_at : Nat
deriving DecidableEq

/-- A SQLite table: column names, rows in rowid order, next AUTOINCREMENT id. -/
structure Table (ρ : Type) where
  cols : List String
  rows : List ρ
  autoinc : Nat
deriving DecidableEq

/-- The database file: the six tables owned by `Database`. -/
structure DB where
  investment_trends : Table TrendRow
  trade_ideas : Table TradeIdeaRow
  trades : Table TradeRow
  prompts : Table PromptRow
  gpt_trends : Table GptTrendRow
  gpt_ideas : Table GptIdeaRow
deriving DecidableEq

/-- True when every column in `cs` exists in the table; an INSERT or UPDATE
naming a missing column fails at preparation time ("no such column"). -/
def hasCols (t : Table ρ) (cs : List String) : Bool :=
  cs.all (fun c => t.cols.contains c)

/-- Column list of `investment_trends` as created by `init_db`. -/
def investment_trends_cols : List String :=
  ["id", "week_start_date", "trend_content", "created_at", "updated_at"]

/-- Column list of `trade_ideas` as created by `init_db`.  Note: there is no
`idea_price_at_creation` column in the CREATE TABLE statement and no
migration ever adds one. -/
def trade_ideas_cols : List String :=
  ["id", "symbol", "idea_description", "entry_price", "target_price",
   "stop_loss", "reasoning", "status", "created_at", "updated_at"]

/-- Column list of `trades` as created by `init_db`. -/
def trades_cols : List String :=
  ["id", "symbol", "trade_type", "quantity", "price", "amount",
   "reasoning", "trade_date", "created_at"]

/-- Column list of `prompts` as created by `init_db`. -/
def prompts_cols : List String :=
  ["id", "name", "prompt_content", "category", "created_at", "updated_at"]

/-- Column list of `gpt_trends` as created by `init_db` (a freshly created
table already has `idea_content`; only tables predating that column lack it). -/
def gpt_trends_cols : List String :=
  ["id", "title", "trend_content", "idea_content", "created_at", "updated_at"]

/-- Column list of the legacy `gpt_ideas` table as created by `init_db`. -/
def gpt_ideas_cols : List String :=
  ["id", "trend_id", "idea_content", "created_at", "updated_at"]

namespace Database

/-- The store produced by `Database.init_db` on an empty database file: each
CREATE TABLE IF NOT EXISTS creates its table with the columns above and no
rows, and SQLite rowids start at 1.  The `PRAGMA table_info(gpt_trends)`
check then finds `idea_content` already present, so no ALTER TABLE runs. -/
def freshDB : DB where
  investment_trends := ⟨investment_trends_cols, [], 1⟩
  trade_ideas := ⟨trade_ideas_cols, [], 1⟩
  trades := ⟨trades_cols, [], 1⟩
  prompts := ⟨prompts_cols, [], 1⟩
  gpt_trends := ⟨gpt_trends_cols, [], 1⟩
  gpt_ideas := ⟨gpt_ideas_cols, [], 1⟩

/-- `Database.init_db` run against an already-initialized store (`DB` models a
store on which the tables exist).  Each `CREATE TABLE IF NOT EXISTS` is a
no-op on an existing table, whatever its schema.  The only remaining effect
is the migration: `PRAGMA table_info(gpt_trends)` lists the columns and, when
`idea_content` is absent, `ALTER TABLE gpt_trends ADD COLUMN idea_content
TEXT` appends it; SQLite's ADD COLUMN leaves every existing row in place (the
new column reads NULL). -/
def init_db (db : DB) : DB :=
  if "idea_content" ∈ db.gpt_trends.cols then db
  else { db with gpt_trends := { db.gpt_trends with
           cols := db.gpt_trends.cols ++ ["idea_content"] } }

/-- `Database.add_trend`: SELECT the id of the row with this
`week_start_date` (fetchone = first row in rowid order); if present, UPDATE
`trend_content` and `updated_at` of every row with that date and return the
selected id; otherwise INSERT a new row and return `cursor.lastrowid`. -/
def add_trend (db : DB) (now : Nat) (week_start_date trend_content : String) :
    Except String (Nat × DB) :=
  if hasCols db.investment_trends ["id", "week_start_date"] then
    match (db.investment_trends.rows.filter
        (fun r => r.week_start_date == week_start_date)).head? with
    | some existing =>
      if hasCols db.investment_trends ["trend_content", "updated_at", "week_start_date"] then
        .ok (existing.id,
          { db with investment_trends := { db.investment_trends with
              rows := db.investment_trends.rows.map (fun r =>
                if r.week_start_date == week_start_date then
                  { r with trend_content := trend_content, updated_at := now }
                else r) } })
      else .error "no such column"
    | none =>
      if hasCols db.investment_trends ["week_start_date", "trend_content"] then
        .ok (db.investment_trends.autoinc,
          { db with investment_trends := { db.investment_trends with
              rows := db.investment_trends.rows ++
                [{ id := db.investment_trends.autoinc,
                   week_start_date := week_start_date,
                   trend_content := trend_content,
                   created_at := now, updated_at := now }],
              autoinc := db.investment_trends.autoinc + 1 } })
      else .error "no such column"
  else .error "no such column"

/-- Comparator for `ORDER BY week_start_date DESC`. -/
def trendsDesc (a b : TrendRow) : Bool :=
  decide (b.week_start_date ≤ a.week_start_date)

/-- `Database.get_trends`: SELECT * ORDER BY week_start_date DESC LIMIT ?. -/
def get_trends (db : DB) (limit : Nat) : Except String (List TrendRow) :=
  if hasCols db.investment_trends ["week_start_date"] then
    .ok ((db.investment_trends.rows.mergeSort trendsDesc).take limit)
  else .error "no such column"

/-- `Database.get_trend_by_date`: SELECT * WHERE week_start_date = ?, fetchone. -/
def get_trend_by_date (db : DB) (week_start_date : String) :
    Except String (Option TrendRow) :=
  if hasCols db.investment_trends ["week_start_date"] then
    .ok ((db.investment_trends.rows.filter
      (fun r => r.week_start_date == week_start_date)).head?)
  else .error "no such column"

/-- `Database.add_trade_idea`: INSERT INTO trade_ideas (symbol,
idea_description, entry_price, target_price, stop_loss, reasoning,
idea_price_at_creation) VALUES (...).  The column list names
`idea_price_at_creation`, so the statement fails to prepare on any store
whose `trade_ideas` table lacks that column — in particular on every store
`init_db` creates. -/
def add_trade_idea (db : DB) (now : Nat) (symbol : Option String)
    (idea_description : String)
    (entry_price target_price stop_loss : Option Rat)
    (reasoning : Option String) (price_at_creation : Option Rat) :
    Except String (Nat × DB) :=
  if hasCols db.trade_ideas ["symbol", "idea_description", "entry_price",
      "target_price", "stop_loss", "reasoning", "idea_price_at_creation"] then
    .ok (db.trade_ideas.autoinc,
      { db with trade_ideas := { db.trade_ideas with
          rows := db.trade_ideas.rows ++
            [{ id := db.trade_ideas.autoinc,
               symbol := symbol,
               idea_description := idea_description,
               entry_price := entry_price,
               target_price := target_price,
               stop_loss := stop_loss,
               reasoning := reasoning,
               status := "active",
               created_at := now, updated_at := now,
               idea_price_at_creation := price_at_creation }],
          autoinc := db.trade_ideas.autoinc + 1 } })
  else .error "no such column"

/-- Comparator for `ORDER BY created_at DESC` on trade ideas. -/
def ideasDesc (a b : TradeIdeaRow) : Bool :=
  decide (b.created_at ≤ a.created_at)

/-- Unfiltered branch of `Database.get_trade_ideas`:
SELECT * ORDER BY created_at DESC. -/
def get_trade_ideas_all (db : DB) : Except String (List TradeIdeaRow) :=
  if hasCols db.trade_ideas ["created_at"] then
    .ok (db.trade_ideas.rows.mergeSort ideasDesc)
  else .error "no such column"

/-- `Database.get_trade_ideas`: Python `if status:` is truthiness, so both
`None` and the empty string select the unfiltered query; any other string
selects WHERE status = ? ORDER BY created_at DESC. -/
def get_trade_ideas (db : DB) (status : Option String) :
    Except String (List TradeIdeaRow) :=
  match status with
  | some st =>
    if st = "" then get_trade_ideas_all db
    else
      if hasCols db.trade_ideas ["status", "created_at"] then
        .ok ((db.trade_ideas.rows.filter (fun r => r.status == st)).mergeSort ideasDesc)
      else .error "no such column"
  | none => get_trade_ideas_all db

/-- `Database.update_trade_idea_status`: UPDATE trade_ideas SET status = ?,
updated_at = CURRENT_TIMESTAMP WHERE id = ?. -/
def update_trade_idea_status (db : DB) (now : Nat) (idea_id : Nat)
    (status : String) : Except String DB :=
  if hasCols db.trade_ideas ["status", "updated_at", "id"] then
    .ok { db with trade_ideas := { db.trade_ideas with
        rows := db.trade_ideas.rows.map (fun r =>
          if r.id == idea_id then { r with status := status, updated_at := now }
          else r) } }
  else .error "no such column"

/-- `Database.delete_trade_idea`: DELETE FROM trade_ideas WHERE id = ?. -/
def delete_trade_idea (db : DB) (idea_id : Nat) : Except String DB :=
  if hasCols db.trade_ideas ["id"] then
    .ok { db with trade_ideas := { db.trade_ideas with
        rows := db.trade_ideas.rows.filter (fun r => !(r.id == idea_id)) } }
  else .error "no such column"

/-- `Database.update_trade_idea_price_at_creation`: UPDATE trade_ideas SET
idea_price_at_creation = ? WHERE id = ?.  Note: no `updated_at` in the SET
list, and the named column does not exist on stores created by `init_db`. -/
def update_trade_idea_price_at_creation (db : DB) (idea_id : Nat)
    (price : Rat) : Except String DB :=
  if hasCols db.trade_ideas ["idea_price_at_creation", "id"] then
    .ok { db with trade_ideas := { db.trade_ideas with
        rows := db.trade_ideas.rows.map (fun r =>
          if r.id == idea_id then { r with idea_price_at_creation := some price }
          else r) } }
  else .error "no such column"

/-- `Database.add_trade`: trade_date defaults to today's date when omitted;
INSERT INTO trades (...columns...) VALUES (...), returning lastrowid. -/
def add_trade (db : DB) (now : Nat) (today : String) (symbol trade_type : String)
    (quantity price amount : Rat) (reasoning : Option String)
    (trade_date : Option String) : Except String (Nat × DB) :=
  if hasCols db.trades ["symbol", "trade_type", "quantity", "price",
      "amount", "reasoning", "trade_date"] then
    .ok (db.trades.autoinc,
      { db with trades := { db.trades with
          rows := db.trades.rows ++
            [{ id := db.trades.autoinc,
               symbol := symbol, trade_type := trade_type,
               quantity := quantity, price := price, amount := amount,
               reasoning := reasoning,
               trade_date := trade_date.getD today,
               created_at := now }],
          autoinc := db.trades.autoinc + 1 } })
  else .error "no such column"

/-- Comparator for `ORDER BY trade_date DESC, created_at DESC`. -/
def tradesDesc (a b : TradeRow) : Bool :=
  decide (b.trade_date < a.trade_date ∨
    (b.trade_date = a.trade_date ∧ b.created_at ≤ a.created_at))

/-- `Database.get_trades`: SELECT * ORDER BY trade_date DESC, created_at DESC
LIMIT ?. -/
def get_trades (db : DB) (limit : Nat) : Except String (List TradeRow) :=
  if hasCols db.trades ["trade_date", "created_at"] then
    .ok ((db.trades.rows.mergeSort tradesDesc).take limit)
  else .error "no such column"

/-- Comparator for `ORDER BY trade_date DESC`. -/
def tradeDateDesc (a b : TradeRow) : Bool :=
  decide (b.trade_date ≤ a.trade_date)

/-- `Database.get_trades_by_symbol`: SELECT * WHERE symbol = ? ORDER BY
trade_date DESC. -/
def get_trades_by_symbol (db : DB) (symbol : String) :
    Except String (List TradeRow) :=
  if hasCols db.trades ["symbol", "trade_date"] then
    .ok ((db.trades.rows.filter (fun r => r.symbol == symbol)).mergeSort tradeDateDesc)
  else .error "no such column"

/-- The dictionary returned by `Database.get_trade_statistics`. -/
structure TradeStatistics where
  total_trades : Nat
  total_amount : Rat
  buy_amount : Rat
  sell_amount : Rat
  net_amount : Rat
deriving DecidableEq

/-- SQL `SUM(amount)` over a selection: NULL (`none`) when no rows match,
otherwise the sum. -/
def sqlSum (l : List Rat) : Option Rat :=
  match l with
  | [] => none
  | _ => some l.sum

/-- `Database.get_trade_statistics`: COUNT(*), SUM(amount), SUM(amount) WHERE
trade_type = buy, SUM(amount) WHERE trade_type = sell, each NULL mapped to 0
by Python's `or 0` (which also maps a genuine 0 to 0, so it is value-equal to
`Option.getD 0`); net_amount = buy_amount - sell_amount. -/
def get_trade_statistics (db : DB) : Except String TradeStatistics :=
  if hasCols db.trades ["amount", "trade_type"] then
    .ok { total_trades := db.trades.rows.length
        , total_amount := (sqlSum (db.trades.rows.map (fun t => t.amount))).getD 0
        , buy_amount := (sqlSum ((db.trades.rows.filter
            (fun t => t.trade_type == "buy")).map (fun t => t.amount))).getD 0
        , sell_amount := (sqlSum ((db.trades.rows.filter
            (fun t => t.trade_type == "sell")).map (fun t => t.amount))).getD 0
        , net_amount :=
            (sqlSum ((db.trades.rows.filter
              (fun t => t.trade_type == "buy")).map (fun t => t.amount))).getD 0 -
            (sqlSum ((db.trades.rows.filter
              (fun t => t.trade_type == "sell")).map (fun t => t.amount))).getD 0 }
  else .error "no such column"

/-- `Database.add_prompt`: INSERT INTO prompts (name, prompt_content,
category) VALUES (...). -/
def add_prompt (db : DB) (now : Nat) (name prompt_content category : String) :
    Except String (Nat × DB) :=
  if hasCols db.prompts ["name", "prompt_content", "category"] then
    .ok (db.prompts.autoinc,
      { db with prompts := { db.prompts with
          rows := db.prompts.rows ++
            [{ id := db.prompts.autoinc, name := name,
               prompt_content := prompt_content, category := category,
               created_at := now, updated_at := now }],
          autoinc := db.prompts.autoinc + 1 } })
  else .error "no such column"

/-- Comparator for `ORDER BY category ASC, name ASC`. -/
def promptLe (a b : PromptRow) : Bool :=
  decide (a.category < b.category ∨ (a.category = b.category ∧ a.name ≤ b.name))

/-- Comparator for `ORDER BY name ASC`. -/
def promptNameLe (a b : PromptRow) : Bool :=
  decide (a.name ≤ b.name)

/-- Unfiltered branch of `Database.get_prompts`:
SELECT * ORDER BY category ASC, name ASC. -/
def get_prompts_all (db : DB) : Except String (List PromptRow) :=
  if hasCols db.prompts ["category", "name"] then
    .ok (db.prompts.rows.mergeSort promptLe)
  else .error "no such column"

/-- `Database.get_prompts`: Python `if category:` is truthiness, so both
`None` and the empty string select the unfiltered query; any other string
selects WHERE category = ? ORDER BY name ASC. -/
def get_prompts (db : DB) (category : Option String) :
    Except String (List PromptRow) :=
  match category with
  | some c =>
    if c = "" then get_prompts_all db
    else
      if hasCols db.prompts ["category", "name"] then
        .ok ((db.prompts.rows.filter (fun r => r.category == c)).mergeSort promptNameLe)
      else .error "no such column"
  | none => get_prompts_all db

/-- `Database.get_prompt_by_id`: SELECT * WHERE id = ?, fetchone. -/
def get_prompt_by_id (db : DB) (prompt_id : Nat) :
    Except String (Option PromptRow) :=
  if hasCols db.prompts ["id"] then
    .ok ((db.prompts.rows.filter (fun r => r.id == prompt_id)).head?)
  else .error "no such column"

/-- `Database.update_prompt`: UPDATE prompts SET name = ?, prompt_content = ?,
category = ?, updated_at = CURRENT_TIMESTAMP WHERE id = ?. -/
def update_prompt (db : DB) (now : Nat) (prompt_id : Nat)
    (name prompt_content category : String) : Except String DB :=
  if hasCols db.prompts ["name", "prompt_content", "category", "updated_at", "id"] then
    .ok { db with prompts := { db.prompts with
        rows := db.prompts.rows.map (fun r =>
          if r.id == prompt_id then
            { r with name := name, prompt_content := prompt_content,
                     category := category, updated_at := now }
          else r) } }
  else .error "no such column"

/-- `Database.delete_prompt`: DELETE FROM prompts WHERE id = ?. -/
def delete_prompt (db : DB) (prompt_id : Nat) : Except String DB :=
  if hasCols db.prompts ["id"] then
    .ok { db with prompts := { db.prompts with
        rows := db.prompts.rows.filter (fun r => !(r.id == prompt_id)) } }
  else .error "no such column"

/-- String comparator for `ORDER BY category ASC`. -/
def strLe (a b : String) : Bool := decide (a ≤ b)

/-- `Database.get_prompt_categories`: SELECT DISTINCT category ORDER BY
category ASC. -/
def get_prompt_categories (db : DB) : Except String (List String) :=
  if hasCols db.prompts ["category"] then
    .ok (((db.prompts.rows.map (fun r => r.category)).eraseDups).mergeSort strLe)
  else .error "no such column"

/-- `Database.add_gpt_trend`: INSERT INTO gpt_trends (title, trend_content,
idea_content) VALUES (...). -/
def add_gpt_trend (db : DB) (now : Nat) (title trend_content : String)
    (idea_content : Option String) : Except String (Nat × DB) :=
  if hasCols db.gpt_trends ["title", "trend_content", "idea_content"] then
    .ok (db.gpt_trends.autoinc,
      { db with gpt_trends := { db.gpt_trends with
          rows := db.gpt_trends.rows ++
            [{ id := db.gpt_trends.autoinc, title := title,
               trend_content := trend_content, idea_content := idea_content,
               created_at := now, updated_at := now }],
          autoinc := db.gpt_trends.autoinc + 1 } })
  else .error "no such column"

/-- Comparator for `ORDER BY created_at DESC` on gpt_trends. -/
def gptTrendsDesc (a b : GptTrendRow) : Bool :=
  decide (b.created_at ≤ a.created_at)

/-- `Database.get_gpt_trends`: SELECT * ORDER BY created_at DESC LIMIT ?. -/
def get_gpt_trends (db : DB) (limit : Nat) : Except String (List GptTrendRow) :=
  if hasCols db.gpt_trends ["created_at"] then
    .ok ((db.gpt_trends.rows.mergeSort gptTrendsDesc).take limit)
  else .error "no such column"

/-- `Database.get_gpt_trend_by_id`: SELECT * WHERE id = ?, fetchone. -/
def get_gpt_trend_by_id (db : DB) (trend_id : Nat) :
    Except String (Option GptTrendRow) :=
  if hasCols db.gpt_trends ["id"] then
    .ok ((db.gpt_trends.rows.filter (fun r => r.id == trend_id)).head?)
  else .error "no such column"

/-- `Database.update_gpt_trend`: when `idea_content` is not None (including
the empty string) the UPDATE sets title, trend_content, idea_content and
updated_at; when it is None the UPDATE sets only title, trend_content and
updated_at, leaving idea_content untouched. -/
def update_gpt_trend (db : DB) (now : Nat) (trend_id : Nat)
    (title trend_content : String) (idea_content : Option String) :
    Except String DB :=
  match idea_content with
  | some ic =>
    if hasCols db.gpt_trends ["title", "trend_content", "idea_content", "updated_at", "id"] then
      .ok { db with gpt_trends := { db.gpt_trends with
          rows := db.gpt_trends.rows.map (fun r =>
            if r.id == trend_id then
              { r with title := title, trend_content := trend_content,
                       idea_content := some ic, updated_at := now }
            else r) } }
    else .error "no such column"
  | none =>
    if hasCols db.gpt_trends ["title", "trend_content", "updated_at", "id"] then
      .ok { db with gpt_trends := { db.gpt_trends with
          rows := db.gpt_trends.rows.map (fun r =>
            if r.id == trend_id then
              { r with title := title, trend_content := trend_content,
                       updated_at := now }
            else r) } }
    else .error "no such column"

/-- `Database.update_gpt_trend_idea`: UPDATE gpt_trends SET idea_content = ?,
updated_at = CURRENT_TIMESTAMP WHERE id = ?. -/
def update_gpt_trend_idea (db : DB) (now : Nat) (trend_id : Nat)
    (idea_content : String) : Except String DB :=
  if hasCols db.gpt_trends ["idea_content", "updated_at", "id"] then
    .ok { db with gpt_trends := { db.gpt_trends with
        rows := db.gpt_trends.rows.map (fun r =>
          if r.id == trend_id then
            { r with idea_content := some idea_content, updated_at := now }
          else r) } }
  else .error "no such column"

/-- `Database.delete_gpt_trend`: DELETE FROM gpt_ideas WHERE trend_id = ?,
then DELETE FROM gpt_trends WHERE id = ?, in one commit. -/
def delete_gpt_trend (db : DB) (trend_id : Nat) : Except String DB :=
  if hasCols db.gpt_ideas ["trend_id"] then
    if hasCols db.gpt_trends ["id"] then
      .ok { db with
        gpt_ideas := { db.gpt_ideas with
          rows := db.gpt_ideas.rows.filter (fun r => !(r.trend_id == trend_id)) },
        gpt_trends := { db.gpt_trends with
          rows := db.gpt_trends.rows.filter (fun r => !(r.id == trend_id)) } }
    else .error "no such column"
  else .error "no such column"

/-- `Database.add_gpt_idea`: INSERT INTO gpt_ideas (trend_id, idea_content)
VALUES (...). -/
def add_gpt_idea (db : DB) (now : Nat) (trend_id : Nat) (idea_content : String) :
    Except String (Nat × DB) :=
  if hasCols db.gpt_ideas ["trend_id", "idea_content"] then
    .ok (db.gpt_ideas.autoinc,
      { db with gpt_ideas := { db.gpt_ideas with
          rows := db.gpt_ideas.rows ++
            [{ id := db.gpt_ideas.autoinc, trend_id := trend_id,
               idea_content := idea_content,
               created_at := now, updated_at := now }],
          autoinc := db.gpt_ideas.autoinc + 1 } })
  else .error "no such column"

/-- Comparator for `ORDER BY created_at DESC` on gpt_ideas. -/
def gptIdeasDesc (a b : GptIdeaRow) : Bool :=
  decide (b.created_at ≤ a.created_at)

/-- `Database.get_gpt_ideas_by_trend`: SELECT * WHERE trend_id = ? ORDER BY
created_at DESC. -/
def get_gpt_ideas_by_trend (db : DB) (trend_id : Nat) :
    Except String (List GptIdeaRow) :=
  if hasCols db.gpt_ideas ["trend_id", "created_at"] then
    .ok ((db.gpt_ideas.rows.filter (fun r => r.trend_id == trend_id)).mergeSort gptIdeasDesc)
  else .error "no such column"

/-- `Database.get_gpt_idea_by_id`: SELECT * WHERE id = ?, fetchone. -/
def get_gpt_idea_by_id (db : DB) (idea_id : Nat) :
    Except String (Option GptIdeaRow) :=
  if hasCols db.gpt_ideas ["id"] then
    .ok ((db.gpt_ideas.rows.filter (fun r => r.id == idea_id)).head?)
  else .error "no such column"

/-- `Database.update_gpt_idea`: UPDATE gpt_ideas SET idea_content = ?,
updated_at = CURRENT_TIMESTAMP WHERE id = ?. -/
def update_gpt_idea (db : DB) (now : Nat) (idea_id : Nat) (idea_content : String) :
    Except String DB :=
  if hasCols db.gpt_ideas ["idea_content", "updated_at", "id"] then
    .ok { db with gpt_ideas := { db.gpt_ideas with
        rows := db.gpt_ideas.rows.map (fun r =>
          if r.id == idea_id then
            { r with idea_content := idea_content, updated_at := now }
          else r) } }
  else .error "no such column"

/-- `Database.delete_gpt_idea`: DELETE FROM gpt_ideas WHERE id = ?. -/
def delete_gpt_idea (db : DB) (idea_id : Nat) : Except String DB :=
  if hasCols db.gpt_ideas ["id"] then
    .ok { db with gpt_ideas := { db.gpt_ideas with
        rows := db.gpt_ideas.rows.filter (fun r => !(r.id == idea_id)) } }
  else .error "no such column"

end Database

/-! Helper lemmas about list operations used by the UPDATE / ORDER BY proofs. -/

/-- A map that does not change the filtered key commutes with the filter. -/
theorem filter_map_comm {ρ : Type} (f : ρ → ρ) (p : ρ → Bool)
    (h : ∀ a, p (f a) = p a) :
    ∀ l : List ρ, (l.map f).filter p = (l.filter p).map f := by
  intro l
  induction l with
  | nil => rfl
  | cons a t ih =>
    simp only [List.map_cons, List.filter_cons, h a]
    cases hpa : p a
    · simp [ih]
    · simp [ih]

/-- SQL SUM with NULL mapped to 0 is the plain list sum. -/
theorem sqlSum_getD (l : List Rat) : (Database.sqlSum l).getD 0 = l.sum := by
  cases l <;> simp [Database.sqlSum]

/-- When every trade is a buy or a sell, the buy sum and the sell sum
partition the total sum. -/
theorem buy_sell_sum_split :
    ∀ l : List TradeRow, (∀ t ∈ l, t.trade_type = "buy" ∨ t.trade_type = "sell") →
    ((l.filter (fun t => t.trade_type == "buy")).map (fun t => t.amount)).sum +
    ((l.filter (fun t => t.trade_type == "sell")).map (fun t => t.amount)).sum =
    (l.map (fun t => t.amount)).sum := by
  intro l h
  induction l with
  | nil => simp
  | cons a t ih =>
    have ha := h a (List.mem_cons_self a t)
    have ht : ∀ x ∈ t, x.trade_type = "buy" ∨ x.trade_type = "sell" :=
      fun x hx => h x (List.mem_cons_of_mem _ hx)
    rcases ha with ha | ha
    · have h1 : (a.trade_type == "buy") = true := by rw [ha]; decide
      have h2 : (a.trade_type == "sell") = false := by rw [ha]; decide
      rw [List.filter_cons, List.filter_cons, h1, h2]
      simp only [if_pos rfl, if_true, eq_self_iff_true, if_neg Bool.false_ne_true, List.map_cons, List.sum_cons]
      rw [← ih ht]; ring
    · have h1 : (a.trade_type == "buy") = false := by rw [ha]; decide
      have h2 : (a.trade_type == "sell") = true := by rw [ha]; decide
      rw [List.filter_cons, List.filter_cons, h1, h2]
      simp only [if_pos rfl, if_true, eq_self_iff_true, if_neg Bool.false_ne_true, List.map_cons, List.sum_cons]
      rw [← ih ht]; ring

/-- The created_at-descending comparator is transitive. -/
theorem ideasDesc_trans (a b c : TradeIdeaRow)
    (h1 : Database.ideasDesc a b) (h2 : Database.ideasDesc b c) :
    Database.ideasDesc a c := by
  simp only [Database.ideasDesc, decide_eq_true_eq] at *
  omega

/-- The created_at-descending comparator is total. -/
theorem ideasDesc_total (a b : TradeIdeaRow) :
    Database.ideasDesc a b || Database.ideasDesc b a := by
  simp only [Database.ideasDesc, Bool.or_eq_true, decide_eq_true_eq]
  omega

/-- The created_at-descending comparator on legacy idea rows is transitive. -/
theorem gptIdeasDesc_trans (a b c : GptIdeaRow)
    (h1 : Database.gptIdeasDesc a b) (h2 : Database.gptIdeasDesc b c) :
    Database.gptIdeasDesc a c := by
  simp only [Database.gptIdeasDesc, decide_eq_true_eq] at *
  omega

/-- The created_at-descending comparator on legacy idea rows is total. -/
theorem gptIdeasDesc_total (a b : GptIdeaRow) :
    Database.gptIdeasDesc a b || Database.gptIdeasDesc b a := by
  simp only [Database.gptIdeasDesc, Bool.or_eq_true, decide_eq_true_eq]
  omega

/-- The category-then-name comparator is transitive. -/
theorem promptLe_trans (a b c : PromptRow)
    (h1 : Database.promptLe a b) (h2 : Database.promptLe b c) :
    Database.promptLe a c := by
  simp only [Database.promptLe, decide_eq_true_eq] at *
  rcases h1 with h1 | ⟨h1e, h1n⟩ <;> rcases h2 with h2 | ⟨h2e, h2n⟩
  · exact Or.inl (lt_trans h1 h2)
  · exact Or.inl (by rw [← h2e]; exact h1)
  · exact Or.inl (by rw [h1e]; exact h2)
  · exact Or.inr ⟨h1e.trans h2e, le_trans h1n h2n⟩

/-- The category-then-name comparator is total. -/
theorem promptLe_total (a b : PromptRow) :
    Database.promptLe a b || Database.promptLe b a := by
  simp only [Database.promptLe, Bool.or_eq_true, decide_eq_true_eq]
  rcases lt_trichotomy a.category b.category with h | h | h
  · exact Or.inl (Or.inl h)
  · rcases le_total a.name b.name with hn | hn
    · exact Or.inl (Or.inr ⟨h, hn⟩)
    · exact Or.inr (Or.inr ⟨h.symm, hn⟩)
  · exact Or.inr (Or.inl h)

/-! Concrete stores used to evaluate the operations. -/

/-- A freshly initialized store whose `trade_ideas` table additionally has the
`idea_price_at_creation` column that `add_trade_idea` names — the schema the
rest of the module evidently assumes, though `init_db` never creates it. -/
def fixedFreshDB : DB :=
  { Database.freshDB with trade_ideas := { Database.freshDB.trade_ideas with
      cols := trade_ideas_cols ++ ["idea_price_at_creation"] } }

/-- A concrete trade-idea row. -/
def sampleIdeaRow : TradeIdeaRow where
  id := 1
  symbol := some "AAPL"
  idea_description := "test idea"
  entry_price := none
  target_price := none
  stop_loss := none
  reasoning := none
  status := "active"
  created_at := 5
  updated_at := 5
  idea_price_at_creation := none

/-- A store produced by `init_db` holding one trade-idea row. -/
def sampleIdeasDB : DB :=
  { Database.freshDB with trade_ideas := ⟨trade_ideas_cols, [sampleIdeaRow], 2⟩ }

/-- The same store with the `idea_price_at_creation` column present. -/
def fixedIdeasDB : DB :=
  { sampleIdeasDB with trade_ideas := { sampleIdeasDB.trade_ideas with
      cols := trade_ideas_cols ++ ["idea_price_at_creation"] } }

/-- C9: `init_db` on an already-initialized store is idempotent and
non-destructive: it leaves every row of every table unchanged, afterwards the
`gpt_trends` table always has the `idea_content` column, and that column is
appended exactly when it was missing and left alone when present; running
initialization twice equals running it once, and a fresh store is a fixed
point. -/
theorem c9_init_db_idempotent (db : DB) :
    (Database.init_db db).investment_trends.rows = db.investment_trends.rows ∧
    (Database.init_db db).trade_ideas.rows = db.trade_ideas.rows ∧
    (Database.init_db db).trades.rows = db.trades.rows ∧
    (Database.init_db db).prompts.rows = db.prompts.rows ∧
    (Database.init_db db).gpt_trends.rows = db.gpt_trends.rows ∧
    (Database.init_db db).gpt_ideas.rows = db.gpt_ideas.rows ∧
    "idea_content" ∈ (Database.init_db db).gpt_trends.cols ∧
    (Database.init_db db).gpt_trends.cols =
      (if "idea_content" ∈ db.gpt_trends.cols then db.gpt_trends.cols
       else db.gpt_trends.cols ++ ["idea_content"]) ∧
    Database.init_db (Database.init_db db) = Database.init_db db ∧
    Database.init_db Database.freshDB = Database.freshDB := by
  by_cases h : "idea_content" ∈ db.gpt_trends.cols
  · refine ⟨?_, ?_, ?_, ?_, ?_, ?_, ?_, ?_, ?_, ?_⟩ <;>
      simp [Database.init_db, h, Database.freshDB, gpt_trends_cols]
  · refine ⟨?_, ?_, ?_, ?_, ?_, ?_, ?_, ?_, ?_, ?_⟩ <;>
      simp [Database.init_db, h, Database.freshDB, gpt_trends_cols]

/-- C1: on a freshly initialized store `createTradeIdea` does NOT succeed —
the INSERT names the column `idea_price_at_creation`, which `init_db`'s
CREATE TABLE for `trade_ideas` omits and no migration ever adds, so every
call fails with a storage error, whatever the arguments.  On the intended
schema (the same store with that column added) the insert succeeds, returns
the new rowid, and stores the supplied `price_at_creation` (or NULL when
omitted). -/
theorem c1_add_trade_idea_missing_column :
    Database.add_trade_idea Database.freshDB 3 (some "AAPL") "buy the dip"
      none none none none (some 101) = .error "no such column" ∧
    Database.add_trade_idea Database.freshDB 3 none "an idea"
      none none none none none = .error "no such column" ∧
    (∃ db1, Database.add_trade_idea fixedFreshDB 3 (some "AAPL") "buy the dip"
        none none none none (some 101) = .ok (1, db1) ∧
      db1.trade_ideas.rows.map (fun r => r.idea_price_at_creation) = [some 101] ∧
      db1.trade_ideas.rows.map (fun r => r.status) = ["active"]) ∧
    (∃ db2, Database.add_trade_idea fixedFreshDB 3 none "an idea"
        none none none none none = .ok (1, db2) ∧
      db2.trade_ideas.rows.map (fun r => r.idea_price_at_creation) = [none]) := by
  exact ⟨rfl, rfl, ⟨_, rfl, rfl, rfl⟩, ⟨_, rfl, rfl⟩⟩

/-- C8: on a store with the schema `init_db` creates, `setTradeIdeaStatus`
updates exactly status and updated_at of the addressed row and leaves every
other table unchanged, but `setTradeIdeaPriceAtCreation` does NOT set
`price_at_creation` — its UPDATE names the nonexistent column
`idea_price_at_creation` and fails with a storage error.  On the intended
schema (column present) the price update succeeds and indeed leaves
`updated_at` untouched. -/
theorem c8_update_price_missing_column :
    (∃ db1, Database.update_trade_idea_status sampleIdeasDB 7 1 "completed" = .ok db1 ∧
      db1.trade_ideas.rows = [{ sampleIdeaRow with status := "completed", updated_at := 7 }] ∧
      db1.investment_trends = sampleIdeasDB.investment_trends ∧
      db1.trades = sampleIdeasDB.trades ∧
      db1.prompts = sampleIdeasDB.prompts ∧
      db1.gpt_trends = sampleIdeasDB.gpt_trends ∧
      db1.gpt_ideas = sampleIdeasDB.gpt_ideas) ∧
    Database.update_trade_idea_price_at_creation sampleIdeasDB 1 123 =
      .error "no such column" ∧
    (∃ db2, Database.update_trade_idea_price_at_creation fixedIdeasDB 1 123 = .ok db2 ∧
      db2.trade_ideas.rows = [{ sampleIdeaRow with idea_price_at_creation := some 123 }]) := by
  exact ⟨⟨_, rfl, rfl, rfl, rfl, rfl, rfl, rfl⟩, rfl, ⟨_, rfl, rfl⟩⟩

/-- C3: on any store whose trades are all buys or sells,
`computeTradeStatistics` returns total_trades = row count, total_amount = sum
of all amounts, buy_amount and sell_amount = sums over the respective types,
net_amount = buy - sell, hence total_amount = buy + sell; on the empty store
every value is zero. -/
theorem c3_trade_statistics_consistent (db : DB)
    (hcols : db.trades.cols = trades_cols)
    (htype : ∀ t ∈ db.trades.rows, t.trade_type = "buy" ∨ t.trade_type = "sell") :
    ∃ st, Database.get_trade_statistics db = .ok st ∧
      st.total_trades = db.trades.rows.length ∧
      st.total_amount = (db.trades.rows.map (fun t => t.amount)).sum ∧
      st.buy_amount = ((db.trades.rows.filter (fun t => t.trade_type == "buy")).map
        (fun t => t.amount)).sum ∧
      st.sell_amount = ((db.trades.rows.filter (fun t => t.trade_type == "sell")).map
        (fun t => t.amount)).sum ∧
      st.net_amount = st.buy_amount - st.sell_amount ∧
      st.total_amount = st.buy_amount + st.sell_amount ∧
      (db.trades.rows = [] → st.total_trades = 0 ∧ st.total_amount = 0 ∧
        st.buy_amount = 0 ∧ st.sell_amount = 0 ∧ st.net_amount = 0) := by
  have hc : hasCols db.trades ["amount", "trade_type"] = true := by
    simp [hasCols, hcols, trades_cols]
  refine ⟨_, by rw [Database.get_trade_statistics, if_pos hc], rfl,
    sqlSum_getD _, sqlSum_getD _, sqlSum_getD _, rfl, ?_, ?_⟩
  · show (Database.sqlSum (db.trades.rows.map (fun t => t.amount))).getD 0 = _
    rw [sqlSum_getD, sqlSum_getD, sqlSum_getD]
    exact (buy_sell_sum_split db.trades.rows htype).symm
  · intro h
    simp [h, Database.sqlSum]

/-- C4: on a store whose trade-idea statuses are drawn from
{active, completed, cancelled} and for a status s in that set,
`listTradeIdeas(s)` returns exactly the rows with status s in
created_at-descending order, and `listTradeIdeas()` returns all rows in
created_at-descending order. -/
theorem c4_get_trade_ideas_status_filter (db : DB) (s : String)
    (hcols : db.trade_ideas.cols = trade_ideas_cols)
    (hs : s ∈ ["active", "completed", "cancelled"])
    (hrows : ∀ r ∈ db.trade_ideas.rows,
      r.status ∈ ["active", "completed", "cancelled"]) :
    ∃ L A,
      Database.get_trade_ideas db (some s) = .ok L ∧
      Database.get_trade_ideas db none = .ok A ∧
      L.Perm (db.trade_ideas.rows.filter (fun r => r.status == s)) ∧
      L.Pairwise (fun a b => b.created_at ≤ a.created_at) ∧
      A.Perm db.trade_ideas.rows ∧
      A.Pairwise (fun a b => b.created_at ≤ a.created_at) := by
  have hne : s ≠ "" := by
    simp only [List.mem_cons, List.not_mem_nil, or_false] at hs
    rcases hs with rfl | rfl | rfl <;> decide
  have hc1 : hasCols db.trade_ideas ["status", "created_at"] = true := by
    simp [hasCols, hcols, trade_ideas_cols]
  have hc2 : hasCols db.trade_ideas ["created_at"] = true := by
    simp [hasCols, hcols, trade_ideas_cols]
  refine ⟨(db.trade_ideas.rows.filter (fun r => r.status == s)).mergeSort Database.ideasDesc,
    db.trade_ideas.rows.mergeSort Database.ideasDesc, ?_, ?_,
    List.mergeSort_perm _ _, ?_, List.mergeSort_perm _ _, ?_⟩
  · simp [Database.get_trade_ideas, hne, hc1]
  · simp [Database.get_trade_ideas, Database.get_trade_ideas_all, hc2]
  · exact (List.sorted_mergeSort ideasDesc_trans ideasDesc_total _).imp
      (fun h => by simpa [Database.ideasDesc] using h)
  · exact (List.sorted_mergeSort ideasDesc_trans ideasDesc_total _).imp
      (fun h => by simpa [Database.ideasDesc] using h)

/-- C10: the empty string as a filter behaves as no filter (Python
truthiness): `listTradeIdeas("")` equals `listTradeIdeas(None)` and returns
all rows in created_at-descending order, and `listPrompts("")` equals
`listPrompts(None)` and returns all prompts ordered by category then name. -/
theorem c10_empty_filter_means_no_filter (db : DB)
    (h1 : db.trade_ideas.cols = trade_ideas_cols)
    (h2 : db.prompts.cols = prompts_cols) :
    Database.get_trade_ideas db (some "") = Database.get_trade_ideas db none ∧
    (∃ L, Database.get_trade_ideas db (some "") = .ok L ∧
      L.Perm db.trade_ideas.rows ∧
      L.Pairwise (fun a b => b.created_at ≤ a.created_at)) ∧
    Database.get_prompts db (some "") = Database.get_prompts db none ∧
    (∃ P, Database.get_prompts db (some "") = .ok P ∧
      P.Perm db.prompts.rows ∧
      P.Pairwise (fun a b => a.category < b.category ∨
        (a.category = b.category ∧ a.name ≤ b.name))) := by
  have hc2 : hasCols db.trade_ideas ["created_at"] = true := by
    simp [hasCols, h1, trade_ideas_cols]
  have hcp : hasCols db.prompts ["category", "name"] = true := by
    simp [hasCols, h2, prompts_cols]
  refine ⟨rfl,
    ⟨db.trade_ideas.rows.mergeSort Database.ideasDesc, ?_,
      List.mergeSort_perm _ _, ?_⟩,
    rfl,
    ⟨db.prompts.rows.mergeSort Database.promptLe, ?_,
      List.mergeSort_perm _ _, ?_⟩⟩
  · simp [Database.get_trade_ideas, Database.get_trade_ideas_all, hc2]
  · exact (List.sorted_mergeSort ideasDesc_trans ideasDesc_total _).imp
      (fun h => by simpa [Database.ideasDesc] using h)
  · simp [Database.get_prompts, Database.get_prompts_all, hcp]
  · exact (List.sorted_mergeSort promptLe_trans promptLe_total _).imp
      (fun h => by simpa [Database.promptLe] using h)

/-- A concrete executed buy, as in the spec's statistics scenario. -/
def sampleBuyTrade : TradeRow where
  id := 1
  symbol := "AAPL"
  trade_type := "buy"
  quantity := 10
  price := 150
  amount := 1500
  reasoning := none
  trade_date := "2024-01-05"
  created_at := 1

/-- A concrete executed sell, as in the spec's statistics scenario. -/
def sampleSellTrade : TradeRow where
  id := 2
  symbol := "AAPL"
  trade_type := "sell"
  quantity := 4
  price := 160
  amount := 640
  reasoning := none
  trade_date := "2024-01-10"
  created_at := 2

/-- A store produced by `init_db` holding two executed trades. -/
def sampleTradesDB : DB :=
  { Database.freshDB with trades := ⟨trades_cols, [sampleBuyTrade, sampleSellTrade], 3⟩ }

/-- Witness for C3 at a concrete two-trade store. -/
theorem c3_trade_statistics_consistent_witness :
    sampleTradesDB.trades.cols = trades_cols ∧
    (∀ t ∈ sampleTradesDB.trades.rows,
      t.trade_type = "buy" ∨ t.trade_type = "sell") ∧
    (∃ st, Database.get_trade_statistics sampleTradesDB = .ok st ∧
      st.total_trades = sampleTradesDB.trades.rows.length ∧
      st.total_amount = (sampleTradesDB.trades.rows.map (fun t => t.amount)).sum ∧
      st.buy_amount = ((sampleTradesDB.trades.rows.filter
        (fun t => t.trade_type == "buy")).map (fun t => t.amount)).sum ∧
      st.sell_amount = ((sampleTradesDB.trades.rows.filter
        (fun t => t.trade_type == "sell")).map (fun t => t.amount)).sum ∧
      st.net_amount = st.buy_amount - st.sell_amount ∧
      st.total_amount = st.buy_amount + st.sell_amount ∧
      (sampleTradesDB.trades.rows = [] → st.total_trades = 0 ∧ st.total_amount = 0 ∧
        st.buy_amount = 0 ∧ st.sell_amount = 0 ∧ st.net_amount = 0)) :=
  ⟨rfl, by decide, c3_trade_statistics_consistent sampleTradesDB rfl (by decide)⟩

/-- Witness for C4 at a concrete one-idea store with status filter "active". -/
theorem c4_get_trade_ideas_status_filter_witness :
    sampleIdeasDB.trade_ideas.cols = trade_ideas_cols ∧
    "active" ∈ ["active", "completed", "cancelled"] ∧
    (∀ r ∈ sampleIdeasDB.trade_ideas.rows,
      r.status ∈ ["active", "completed", "cancelled"]) ∧
    (∃ L A,
      Database.get_trade_ideas sampleIdeasDB (some "active") = .ok L ∧
      Database.get_trade_ideas sampleIdeasDB none = .ok A ∧
      L.Perm (sampleIdeasDB.trade_ideas.rows.filter (fun r => r.status == "active")) ∧
      L.Pairwise (fun a b => b.created_at ≤ a.created_at) ∧
      A.Perm sampleIdeasDB.trade_ideas.rows ∧
      A.Pairwise (fun a b => b.created_at ≤ a.created_at)) :=
  ⟨rfl, by decide, by decide,
    c4_get_trade_ideas_status_filter sampleIdeasDB "active" rfl (by decide) (by decide)⟩

/-- Witness for C10 at a freshly initialized store. -/
theorem c10_empty_filter_means_no_filter_witness :
    Database.freshDB.trade_ideas.cols = trade_ideas_cols ∧
    Database.freshDB.prompts.cols = prompts_cols ∧
    (Database.get_trade_ideas Database.freshDB (some "") =
      Database.get_trade_ideas Database.freshDB none ∧
    (∃ L, Database.get_trade_ideas Database.freshDB (some "") = .ok L ∧
      L.Perm Database.freshDB.trade_ideas.rows ∧
      L.Pairwise (fun a b => b.created_at ≤ a.created_at)) ∧
    Database.get_prompts Database.freshDB (some "") =
      Database.get_prompts Database.freshDB none ∧
    (∃ P, Database.get_prompts Database.freshDB (some "") = .ok P ∧
      P.Perm Database.freshDB.prompts.rows ∧
      P.Pairwise (fun a b => a.category < b.category ∨
        (a.category = b.category ∧ a.name ≤ b.name)))) :=
  ⟨rfl, rfl, c10_empty_filter_means_no_filter Database.freshDB rfl rfl⟩

/-- The trend UPDATE leaves the filtered key `week_start_date` unchanged. -/
theorem trend_update_preserves_date (d c : String) (now : Nat) :
    ∀ x : TrendRow,
      (((fun x => if x.week_start_date == d then
          { x with trend_content := c, updated_at := now }
        else x) x).week_start_date == d) = (x.week_start_date == d) := by
  intro x
  by_cases h : (x.week_start_date == d) = true <;> simp [h]

/-- Equation lemma: when no row has the given date, `add_trend` inserts a new
row, returns the fresh rowid, and afterwards exactly that new row matches the
date. -/
theorem add_trend_insert_full (db : DB) (now : Nat) (d c : String)
    (hcols : db.investment_trends.cols = investment_trends_cols)
    (hnil : db.investment_trends.rows.filter (fun r => r.week_start_date == d) = []) :
    ∃ db1, Database.add_trend db now d c = .ok (db.investment_trends.autoinc, db1) ∧
      db1.investment_trends.rows.filter (fun r => r.week_start_date == d) =
        [({ id := db.investment_trends.autoinc, week_start_date := d,
            trend_content := c, created_at := now, updated_at := now } : TrendRow)] ∧
      db1.investment_trends.cols = db.investment_trends.cols := by
  have h1 : hasCols db.investment_trends ["id", "week_start_date"] = true := by
    simp [hasCols, hcols, investment_trends_cols]
  have h2 : hasCols db.investment_trends ["week_start_date", "trend_content"] = true := by
    simp [hasCols, hcols, investment_trends_cols]
  refine ⟨{ db with investment_trends := { db.investment_trends with
      rows := db.investment_trends.rows ++
        [{ id := db.investment_trends.autoinc, week_start_date := d,
           trend_content := c, created_at := now, updated_at := now }],
      autoinc := db.investment_trends.autoinc + 1 } }, ?_, ?_, rfl⟩
  · unfold Database.add_trend
    rw [if_pos h1, hnil, List.head?_nil]
    simp only [h2, eq_self_iff_true, if_true]
    try rfl
  · have hstep : (db.investment_trends.rows ++
        [({ id := db.investment_trends.autoinc, week_start_date := d,
            trend_content := c, created_at := now, updated_at := now } : TrendRow)]).filter
          (fun r => r.week_start_date == d) =
        [({ id := db.investment_trends.autoinc, week_start_date := d,
            trend_content := c, created_at := now, updated_at := now } : TrendRow)] := by
      rw [List.filter_append, hnil]
      simp
    exact hstep

/-- Equation lemma: when exactly the row `r` has the given date, `add_trend`
updates content and updated_at in place, returns `r.id`, and afterwards
exactly the updated row matches the date. -/
theorem add_trend_update_full (db : DB) (now : Nat) (d c : String) (r : TrendRow)
    (hcols : db.investment_trends.cols = investment_trends_cols)
    (hfilt : db.investment_trends.rows.filter
      (fun x => x.week_start_date == d) = [r]) :
    ∃ db2, Database.add_trend db now d c = .ok (r.id, db2) ∧
      db2.investment_trends.rows.filter (fun x => x.week_start_date == d) =
        [{ r with trend_content := c, updated_at := now }] ∧
      db2.investment_trends.cols = db.investment_trends.cols := by
  have h1 : hasCols db.investment_trends ["id", "week_start_date"] = true := by
    simp [hasCols, hcols, investment_trends_cols]
  have h2 : hasCols db.investment_trends
      ["trend_content", "updated_at", "week_start_date"] = true := by
    simp [hasCols, hcols, investment_trends_cols]
  have hrd : (r.week_start_date == d) = true := by
    have hm : r ∈ db.investment_trends.rows.filter
        (fun x => x.week_start_date == d) := by
      rw [hfilt]; exact List.mem_cons_self r []
    exact (List.mem_filter.mp hm).2
  have hhead : (db.investment_trends.rows.filter
      (fun x => x.week_start_date == d)).head? = some r := by
    rw [hfilt]; rfl
  refine ⟨{ db with investment_trends := { db.investment_trends with
      rows := db.investment_trends.rows.map (fun x =>
        if x.week_start_date == d then
          { x with trend_content := c, updated_at := now }
        else x) } }, ?_, ?_, rfl⟩
  · unfold Database.add_trend
    rw [if_pos h1, hhead]
    simp only [h2, eq_self_iff_true, if_true]
    try rfl
  · have hstep : (db.investment_trends.rows.map (fun x =>
        if x.week_start_date == d then
          { x with trend_content := c, updated_at := now }
        else x)).filter (fun x => x.week_start_date == d) =
        [{ r with trend_content := c, updated_at := now }] := by
      rw [filter_map_comm _ _ (trend_update_preserves_date d c now), hfilt,
        List.map_cons, List.map_nil, hrd]
      simp
    exact hstep

/-- C2: upserting (d, c1) then (d, c2) on a store with at most one row at
date d (the UNIQUE(week_start_date) invariant) leaves exactly one row at d,
whose content is c2, whose id is the id returned by the first call (also
returned by the second call), and whose created_at is unchanged from the
first call. -/
theorem c2_trend_upsert (db : DB) (t1 t2 : Nat) (d c1 c2 : String)
    (hcols : db.investment_trends.cols = investment_trends_cols)
    (huniq : (db.investment_trends.rows.filter
      (fun r => r.week_start_date == d)).length ≤ 1) :
    ∃ id1 db1 id2 db2,
      Database.add_trend db t1 d c1 = .ok (id1, db1) ∧
      Database.add_trend db1 t2 d c2 = .ok (id2, db2) ∧
      id2 = id1 ∧
      (∃ r2 r1,
        db2.investment_trends.rows.filter (fun r => r.week_start_date == d) = [r2] ∧
        db1.investment_trends.rows.filter (fun r => r.week_start_date == d) = [r1] ∧
        r2.trend_content = c2 ∧ r2.id = id1 ∧ r2.created_at = r1.created_at) := by
  cases hfilt : db.investment_trends.rows.filter (fun r => r.week_start_date == d) with
  | nil =>
    obtain ⟨db1, e1, hf1, hc1⟩ := add_trend_insert_full db t1 d c1 hcols hfilt
    obtain ⟨db2, e2, hf2, hc2⟩ :=
      add_trend_update_full db1 t2 d c2 _ (hc1.trans hcols) hf1
    exact ⟨db.investment_trends.autoinc, db1, _, db2, e1, e2, rfl,
      _, _, hf2, hf1, rfl, rfl, rfl⟩
  | cons r rest =>
    have hrest : rest = [] := by
      rw [hfilt] at huniq
      simpa using huniq
    subst hrest
    obtain ⟨db1, e1, hf1, hc1⟩ := add_trend_update_full db t1 d c1 r hcols hfilt
    obtain ⟨db2, e2, hf2, hc2⟩ :=
      add_trend_update_full db1 t2 d c2 _ (hc1.trans hcols) hf1
    exact ⟨r.id, db1, _, db2, e1, e2, rfl, _, _, hf2, hf1, rfl, rfl, rfl⟩

/-- Witness for C2 at a freshly initialized store. -/
theorem c2_trend_upsert_witness :
    Database.freshDB.investment_trends.cols = investment_trends_cols ∧
    (Database.freshDB.investment_trends.rows.filter
      (fun r => r.week_start_date == "2024-01-01")).length ≤ 1 ∧
    (∃ id1 db1 id2 db2,
      Database.add_trend Database.freshDB 1 "2024-01-01" "Bullish on tech" = .ok (id1, db1) ∧
      Database.add_trend db1 2 "2024-01-01" "Revised: neutral on tech" = .ok (id2, db2) ∧
      id2 = id1 ∧
      (∃ r2 r1,
        db2.investment_trends.rows.filter
          (fun r => r.week_start_date == "2024-01-01") = [r2] ∧
        db1.investment_trends.rows.filter
          (fun r => r.week_start_date == "2024-01-01") = [r1] ∧
        r2.trend_content = "Revised: neutral on tech" ∧ r2.id = id1 ∧
        r2.created_at = r1.created_at)) :=
  ⟨rfl, by decide,
    c2_trend_upsert Database.freshDB 1 2 "2024-01-01"
      "Bullish on tech" "Revised: neutral on tech" rfl (by decide)⟩

/-- State of the store after an operation returning no value: on error the
connection is closed without commit, so the store is unchanged. -/
def dbAfter (db : DB) : Except String DB → DB
  | .ok db1 => db1
  | .error _ => db

/-- State of the store after an operation returning a rowid. -/
def dbAfter2 (db : DB) : Except String (Nat × DB) → DB
  | .ok (_, db1) => db1
  | .error _ => db

/-- C7: Trade rows are append-only.  Every exposed mutating operation other
than `recordTrade` (`add_trade`) leaves the `trades` table — every field of
every row — unchanged, whatever its arguments and whether it succeeds or
fails; `add_trade` itself only ever appends to the existing rows.  Read
operations return values without producing a new store, so they cannot
modify it. -/
theorem c7_trades_append_only (db : DB) :
    ((Database.init_db db).trades = db.trades) ∧
    (∀ now d c, (dbAfter2 db (Database.add_trend db now d c)).trades = db.trades) ∧
    (∀ now sym desc ep tp sl rs pc,
      (dbAfter2 db (Database.add_trade_idea db now sym desc ep tp sl rs pc)).trades
        = db.trades) ∧
    (∀ now i s,
      (dbAfter db (Database.update_trade_idea_status db now i s)).trades = db.trades) ∧
    (∀ i, (dbAfter db (Database.delete_trade_idea db i)).trades = db.trades) ∧
    (∀ i p, (dbAfter db (Database.update_trade_idea_price_at_creation db i p)).trades
      = db.trades) ∧
    (∀ now n c cat, (dbAfter2 db (Database.add_prompt db now n c cat)).trades = db.trades) ∧
    (∀ now i n c cat,
      (dbAfter db (Database.update_prompt db now i n c cat)).trades = db.trades) ∧
    (∀ i, (dbAfter db (Database.delete_prompt db i)).trades = db.trades) ∧
    (∀ now t c ic, (dbAfter2 db (Database.add_gpt_trend db now t c ic)).trades = db.trades) ∧
    (∀ now i t c ic,
      (dbAfter db (Database.update_gpt_trend db now i t c ic)).trades = db.trades) ∧
    (∀ now i ic,
      (dbAfter db (Database.update_gpt_trend_idea db now i ic)).trades = db.trades) ∧
    (∀ i, (dbAfter db (Database.delete_gpt_trend db i)).trades = db.trades) ∧
    (∀ now ti ic, (dbAfter2 db (Database.add_gpt_idea db now ti ic)).trades = db.trades) ∧
    (∀ now i ic, (dbAfter db (Database.update_gpt_idea db now i ic)).trades = db.trades) ∧
    (∀ i, (dbAfter db (Database.delete_gpt_idea db i)).trades = db.trades) ∧
    (∀ now today sym ty q p a rs td, ∃ tail,
      (dbAfter2 db (Database.add_trade db now today sym ty q p a rs td)).trades.rows =
        db.trades.rows ++ tail) := by
  refine ⟨?_, ?_, ?_, ?_, ?_, ?_, ?_, ?_, ?_, ?_, ?_, ?_, ?_, ?_, ?_, ?_, ?_⟩
  · unfold Database.init_db
    split <;> rfl
  · intro now d c
    unfold Database.add_trend
    repeat' split
    all_goals rfl
  · intro now sym desc ep tp sl rs pc
    unfold Database.add_trade_idea
    split <;> rfl
  · intro now i s
    unfold Database.update_trade_idea_status
    split <;> rfl
  · intro i
    unfold Database.delete_trade_idea
    split <;> rfl
  · intro i p
    unfold Database.update_trade_idea_price_at_creation
    split <;> rfl
  · intro now n c cat
    unfold Database.add_prompt
    split <;> rfl
  · intro now i n c cat
    unfold Database.update_prompt
    split <;> rfl
  · intro i
    unfold Database.delete_prompt
    split <;> rfl
  · intro now t c ic
    unfold Database.add_gpt_trend
    split <;> rfl
  · intro now i t c ic
    unfold Database.update_gpt_trend
    repeat' split
    all_goals rfl
  · intro now i ic
    unfold Database.update_gpt_trend_idea
    split <;> rfl
  · intro i
    unfold Database.delete_gpt_trend
    repeat' split
    all_goals rfl
  · intro now ti ic
    unfold Database.add_gpt_idea
    split <;> rfl
  · intro now i ic
    unfold Database.update_gpt_idea
    split <;> rfl
  · intro i
    unfold Database.delete_gpt_idea
    split <;> rfl
  · intro now today sym ty q p a rs td
    unfold Database.add_trade
    split
    · exact ⟨_, rfl⟩
    · exact ⟨[], (List.append_nil _).symm⟩

/-- C5: updating a GptTrendRecord with ideaContent omitted (None) sets title
and trend_content (and updated_at) and leaves idea_content unchanged, while
updating with ideaContent explicitly supplied — any string v, including the
empty string — sets idea_content to v; in both cases rows with other ids and
all other tables are unchanged, and ids and created_at are preserved. -/
theorem c5_update_gpt_trend_partial_update (db : DB) (now1 now2 : Nat) (i : Nat)
    (t1 c1 t2 c2 v : String)
    (hcols : hasCols db.gpt_trends
      ["title", "trend_content", "idea_content", "updated_at", "id"] = true) :
    ∃ db1 db2,
      Database.update_gpt_trend db now1 i t1 c1 none = .ok db1 ∧
      Database.update_gpt_trend db now2 i t2 c2 (some v) = .ok db2 ∧
      db1.gpt_trends.rows.length = db.gpt_trends.rows.length ∧
      db2.gpt_trends.rows.length = db.gpt_trends.rows.length ∧
      (∀ k (hk : k < db.gpt_trends.rows.length) (hk1 : k < db1.gpt_trends.rows.length),
        (db1.gpt_trends.rows.get ⟨k, hk1⟩).idea_content =
          (db.gpt_trends.rows.get ⟨k, hk⟩).idea_content ∧
        (db1.gpt_trends.rows.get ⟨k, hk1⟩).id = (db.gpt_trends.rows.get ⟨k, hk⟩).id ∧
        (db1.gpt_trends.rows.get ⟨k, hk1⟩).created_at =
          (db.gpt_trends.rows.get ⟨k, hk⟩).created_at ∧
        ((db.gpt_trends.rows.get ⟨k, hk⟩).id = i →
          (db1.gpt_trends.rows.get ⟨k, hk1⟩).title = t1 ∧
          (db1.gpt_trends.rows.get ⟨k, hk1⟩).trend_content = c1 ∧
          (db1.gpt_trends.rows.get ⟨k, hk1⟩).updated_at = now1) ∧
        ((db.gpt_trends.rows.get ⟨k, hk⟩).id ≠ i →
          db1.gpt_trends.rows.get ⟨k, hk1⟩ = db.gpt_trends.rows.get ⟨k, hk⟩)) ∧
      (∀ k (hk : k < db.gpt_trends.rows.length) (hk2 : k < db2.gpt_trends.rows.length),
        (db2.gpt_trends.rows.get ⟨k, hk2⟩).id = (db.gpt_trends.rows.get ⟨k, hk⟩).id ∧
        (db2.gpt_trends.rows.get ⟨k, hk2⟩).created_at =
          (db.gpt_trends.rows.get ⟨k, hk⟩).created_at ∧
        ((db.gpt_trends.rows.get ⟨k, hk⟩).id = i →
          (db2.gpt_trends.rows.get ⟨k, hk2⟩).title = t2 ∧
          (db2.gpt_trends.rows.get ⟨k, hk2⟩).trend_content = c2 ∧
          (db2.gpt_trends.rows.get ⟨k, hk2⟩).idea_content = some v ∧
          (db2.gpt_trends.rows.get ⟨k, hk2⟩).updated_at = now2) ∧
        ((db.gpt_trends.rows.get ⟨k, hk⟩).id ≠ i →
          db2.gpt_trends.rows.get ⟨k, hk2⟩ = db.gpt_trends.rows.get ⟨k, hk⟩)) ∧
      db1.investment_trends = db.investment_trends ∧
      db1.trade_ideas = db.trade_ideas ∧ db1.trades = db.trades ∧
      db1.prompts = db.prompts ∧ db1.gpt_ideas = db.gpt_ideas ∧
      db2.investment_trends = db.investment_trends ∧
      db2.trade_ideas = db.trade_ideas ∧ db2.trades = db.trades ∧
      db2.prompts = db.prompts ∧ db2.gpt_ideas = db.gpt_ideas := by
  have hc2 : hasCols db.gpt_trends
      ["title", "trend_content", "updated_at", "id"] = true := by
    simp only [hasCols, List.all_cons, List.all_nil, Bool.and_eq_true] at hcols ⊢
    tauto
  have e1 : Database.update_gpt_trend db now1 i t1 c1 none =
      .ok { db with gpt_trends := { db.gpt_trends with
        rows := db.gpt_trends.rows.map (fun r =>
          if r.id == i then
            { r with title := t1, trend_content := c1, updated_at := now1 }
          else r) } } := by
    unfold Database.update_gpt_trend
    simp only [hc2, eq_self_iff_true, if_true]
  have e2 : Database.update_gpt_trend db now2 i t2 c2 (some v) =
      .ok { db with gpt_trends := { db.gpt_trends with
        rows := db.gpt_trends.rows.map (fun r =>
          if r.id == i then
            { r with title := t2, trend_content := c2,
                     idea_content := some v, updated_at := now2 }
          else r) } } := by
    unfold Database.update_gpt_trend
    simp only [hcols, eq_self_iff_true, if_true]
  refine ⟨_, _, e1, e2, by simp, by simp, ?_, ?_,
    rfl, rfl, rfl, rfl, rfl, rfl, rfl, rfl, rfl, rfl⟩
  · intro k hk hk1
    by_cases hid : (db.gpt_trends.rows.get ⟨k, hk⟩).id = i <;>
      rw [List.get_eq_getElem] at hid <;>
      simp [List.get_eq_getElem, List.getElem_map, hid]
  · intro k hk hk2
    by_cases hid : (db.gpt_trends.rows.get ⟨k, hk⟩).id = i <;>
      rw [List.get_eq_getElem] at hid <;>
      simp [List.get_eq_getElem, List.getElem_map, hid]

/-- A concrete GPT trend row. -/
def sampleGptTrendRow : GptTrendRow where
  id := 1
  title := "Weekly outlook"
  trend_content := "Markets mixed"
  idea_content := some "Watch semis"
  created_at := 3
  updated_at := 3

/-- A store produced by `init_db` holding one GPT trend row. -/
def sampleGptDB : DB :=
  { Database.freshDB with gpt_trends := ⟨gpt_trends_cols, [sampleGptTrendRow], 2⟩ }

/-- Witness for C5 at a concrete one-record store, with the explicitly
supplied idea content being the empty string. -/
theorem c5_update_gpt_trend_partial_update_witness :
    hasCols sampleGptDB.gpt_trends
      ["title", "trend_content", "idea_content", "updated_at", "id"] = true ∧
    (∃ db1 db2,
      Database.update_gpt_trend sampleGptDB 8 1 "T1" "C1" none = .ok db1 ∧
      Database.update_gpt_trend sampleGptDB 9 1 "T2" "C2" (some "") = .ok db2 ∧
      db1.gpt_trends.rows.length = sampleGptDB.gpt_trends.rows.length ∧
      db2.gpt_trends.rows.length = sampleGptDB.gpt_trends.rows.length ∧
      (∀ k (hk : k < sampleGptDB.gpt_trends.rows.length)
          (hk1 : k < db1.gpt_trends.rows.length),
        (db1.gpt_trends.rows.get ⟨k, hk1⟩).idea_content =
          (sampleGptDB.gpt_trends.rows.get ⟨k, hk⟩).idea_content ∧
        (db1.gpt_trends.rows.get ⟨k, hk1⟩).id =
          (sampleGptDB.gpt_trends.rows.get ⟨k, hk⟩).id ∧
        (db1.gpt_trends.rows.get ⟨k, hk1⟩).created_at =
          (sampleGptDB.gpt_trends.rows.get ⟨k, hk⟩).created_at ∧
        ((sampleGptDB.gpt_trends.rows.get ⟨k, hk⟩).id = 1 →
          (db1.gpt_trends.rows.get ⟨k, hk1⟩).title = "T1" ∧
          (db1.gpt_trends.rows.get ⟨k, hk1⟩).trend_content = "C1" ∧
          (db1.gpt_trends.rows.get ⟨k, hk1⟩).updated_at = 8) ∧
        ((sampleGptDB.gpt_trends.rows.get ⟨k, hk⟩).id ≠ 1 →
          db1.gpt_trends.rows.get ⟨k, hk1⟩ =
            sampleGptDB.gpt_trends.rows.get ⟨k, hk⟩)) ∧
      (∀ k (hk : k < sampleGptDB.gpt_trends.rows.length)
          (hk2 : k < db2.gpt_trends.rows.length),
        (db2.gpt_trends.rows.get ⟨k, hk2⟩).id =
          (sampleGptDB.gpt_trends.rows.get ⟨k, hk⟩).id ∧
        (db2.gpt_trends.rows.get ⟨k, hk2⟩).created_at =
          (sampleGptDB.gpt_trends.rows.get ⟨k, hk⟩).created_at ∧
        ((sampleGptDB.gpt_trends.rows.get ⟨k, hk⟩).id = 1 →
          (db2.gpt_trends.rows.get ⟨k, hk2⟩).title = "T2" ∧
          (db2.gpt_trends.rows.get ⟨k, hk2⟩).trend_content = "C2" ∧
          (db2.gpt_trends.rows.get ⟨k, hk2⟩).idea_content = some "" ∧
          (db2.gpt_trends.rows.get ⟨k, hk2⟩).updated_at = 9) ∧
        ((sampleGptDB.gpt_trends.rows.get ⟨k, hk⟩).id ≠ 1 →
          db2.gpt_trends.rows.get ⟨k, hk2⟩ =
            sampleGptDB.gpt_trends.rows.get ⟨k, hk⟩)) ∧
      db1.investment_trends = sampleGptDB.investment_trends ∧
      db1.trade_ideas = sampleGptDB.trade_ideas ∧ db1.trades = sampleGptDB.trades ∧
      db1.prompts = sampleGptDB.prompts ∧ db1.gpt_ideas = sampleGptDB.gpt_ideas ∧
      db2.investment_trends = sampleGptDB.investment_trends ∧
      db2.trade_ideas = sampleGptDB.trade_ideas ∧ db2.trades = sampleGptDB.trades ∧
      db2.prompts = sampleGptDB.prompts ∧ db2.gpt_ideas = sampleGptDB.gpt_ideas) :=
  ⟨rfl, c5_update_gpt_trend_partial_update sampleGptDB 8 9 1 "T1" "C1" "T2" "C2" "" rfl⟩

/-- C6: deleting a GptTrendRecord removes the record and every legacy child
idea row referencing it, so a subsequent `listLegacyIdeasByTrend` for that id
returns the empty sequence; records with other ids, legacy rows referencing
other trend ids, and all other tables are unchanged. -/
theorem c6_delete_gpt_trend_cascade (db : DB) (i : Nat)
    (hgi : hasCols db.gpt_ideas ["trend_id", "created_at"] = true)
    (hgt : hasCols db.gpt_trends ["id"] = true) :
    ∃ db1, Database.delete_gpt_trend db i = .ok db1 ∧
      Database.get_gpt_ideas_by_trend db1 i = .ok [] ∧
      (∀ r ∈ db1.gpt_trends.rows, r.id ≠ i) ∧
      (∀ r ∈ db1.gpt_ideas.rows, r.trend_id ≠ i) ∧
      (∀ j, j ≠ i →
        Database.get_gpt_trend_by_id db1 j = Database.get_gpt_trend_by_id db j) ∧
      (∀ j, j ≠ i →
        Database.get_gpt_ideas_by_trend db1 j = Database.get_gpt_ideas_by_trend db j) ∧
      db1.investment_trends = db.investment_trends ∧
      db1.trade_ideas = db.trade_ideas ∧
      db1.trades = db.trades ∧
      db1.prompts = db.prompts := by
  have htid : hasCols db.gpt_ideas ["trend_id"] = true := by
    simp only [hasCols, List.all_cons, List.all_nil, Bool.and_eq_true] at hgi ⊢
    tauto
  have e0 : Database.delete_gpt_trend db i = .ok { db with
      gpt_ideas := { db.gpt_ideas with
        rows := db.gpt_ideas.rows.filter (fun r => !(r.trend_id == i)) },
      gpt_trends := { db.gpt_trends with
        rows := db.gpt_trends.rows.filter (fun r => !(r.id == i)) } } := by
    unfold Database.delete_gpt_trend
    rw [if_pos htid, if_pos hgt]
  refine ⟨_, e0, ?_, ?_, ?_, ?_, ?_, rfl, rfl, rfl, rfl⟩
  · have hnil : (db.gpt_ideas.rows.filter (fun r => !(r.trend_id == i))).filter
        (fun r => r.trend_id == i) = [] := by
      rw [List.filter_filter]
      simp
    show (if hasCols db.gpt_ideas ["trend_id", "created_at"] = true then
        Except.ok (((db.gpt_ideas.rows.filter (fun r => !(r.trend_id == i))).filter
          (fun r => r.trend_id == i)).mergeSort Database.gptIdeasDesc)
      else Except.error "no such column") = .ok []
    rw [if_pos hgi, hnil, List.mergeSort_nil]
  · intro r hr
    have := (List.mem_filter.mp hr).2
    simpa using this
  · intro r hr
    have := (List.mem_filter.mp hr).2
    simpa using this
  · intro j hj
    have hstep : (db.gpt_trends.rows.filter (fun r => !(r.id == i))).filter
        (fun r => r.id == j) = db.gpt_trends.rows.filter (fun r => r.id == j) := by
      rw [List.filter_filter]
      refine List.filter_congr ?_
      intro a _
      by_cases h : a.id = j <;> simp [h, hj]
    show (if hasCols db.gpt_trends ["id"] = true then
        Except.ok (((db.gpt_trends.rows.filter (fun r => !(r.id == i))).filter
          (fun r => r.id == j)).head?)
      else Except.error "no such column") =
      (if hasCols db.gpt_trends ["id"] = true then
        Except.ok ((db.gpt_trends.rows.filter (fun r => r.id == j)).head?)
      else Except.error "no such column")
    rw [if_pos hgt, if_pos hgt, hstep]
  · intro j hj
    have hstep : (db.gpt_ideas.rows.filter (fun r => !(r.trend_id == i))).filter
        (fun r => r.trend_id == j) =
        db.gpt_ideas.rows.filter (fun r => r.trend_id == j) := by
      rw [List.filter_filter]
      refine List.filter_congr ?_
      intro a _
      by_cases h : a.trend_id = j <;> simp [h, hj]
    show (if hasCols db.gpt_ideas ["trend_id", "created_at"] = true then
        Except.ok (((db.gpt_ideas.rows.filter (fun r => !(r.trend_id == i))).filter
          (fun r => r.trend_id == j)).mergeSort Database.gptIdeasDesc)
      else Except.error "no such column") =
      (if hasCols db.gpt_ideas ["trend_id", "created_at"] = true then
        Except.ok ((db.gpt_ideas.rows.filter
          (fun r => r.trend_id == j)).mergeSort Database.gptIdeasDesc)
      else Except.error "no such column")
    rw [if_pos hgi, if_pos hgi, hstep]

/-- A concrete legacy child idea row referencing trend 1. -/
def sampleGptIdeaRow : GptIdeaRow where
  id := 1
  trend_id := 1
  idea_content := "legacy idea"
  created_at := 4
  updated_at := 4

/-- A store holding one GPT trend row and one legacy child idea row. -/
def sampleCascadeDB : DB :=
  { Database.freshDB with
      gpt_trends := ⟨gpt_trends_cols, [sampleGptTrendRow], 2⟩,
      gpt_ideas := ⟨gpt_ideas_cols, [sampleGptIdeaRow], 2⟩ }

/-- Witness for C6 at a concrete store with one trend and one child row. -/
theorem c6_delete_gpt_trend_cascade_witness :
    hasCols sampleCascadeDB.gpt_ideas ["trend_id", "created_at"] = true ∧
    hasCols sampleCascadeDB.gpt_trends ["id"] = true ∧
    (∃ db1, Database.delete_gpt_trend sampleCascadeDB 1 = .ok db1 ∧
      Database.get_gpt_ideas_by_trend db1 1 = .ok [] ∧
      (∀ r ∈ db1.gpt_trends.rows, r.id ≠ 1) ∧
      (∀ r ∈ db1.gpt_ideas.rows, r.trend_id ≠ 1) ∧
      (∀ j, j ≠ 1 →
        Database.get_gpt_trend_by_id db1 j =
          Database.get_gpt_trend_by_id sampleCascadeDB j) ∧
      (∀ j, j ≠ 1 →
        Database.get_gpt_ideas_by_trend db1 j =
          Database.get_gpt_ideas_by_trend sampleCascadeDB j) ∧
      db1.investment_trends = sampleCascadeDB.investment_trends ∧
      db1.trade_ideas = sampleCascadeDB.trade_ideas ∧
      db1.trades = sampleCascadeDB.trades ∧
      db1.prompts = sampleCascadeDB.prompts) :=
  ⟨rfl, rfl, c6_delete_gpt_trend_cascade sampleCascadeDB 1 rfl rfl⟩

end InvestmentAssistant
